import Mathlib

/-!
Verification development for the bank-movement classifier
(`app (1).py`: `_slug`, `_to_datetime`, `_to_number`, `detect_direction_and_amount`,
`categorize_rows`, `build_output_sheets`, `guess_columns`, `process_dataframe`).

The Python code is shallowly embedded over `List Char` strings and `ℚ`
amounts.  A cell of the input table is `nan` (missing), a number, or text —
the three cell shapes `pd.read_csv` produces for the columns this pipeline
touches.  Library collaborators (the pandas flexible day-first date parse,
Python `float`) are modelled on the input shapes the pipeline exercises:
numeric day/month/year triples for the flexible date parse, plain decimal
notation with optional sign and exponent for `float`.  Exotic library inputs
(month names, `inf`, digit underscores) are outside the model and noted at
the definition concerned.
-/

/-- A raw cell value: missing (`NaN`/`None`), numeric, or text. -/
inductive CellVal where
  | na : CellVal
  | num : ℚ → CellVal
  | text : String → CellVal
deriving DecidableEq

/-- An input table: the column headers and the rows of cells
(each row listed in header order). -/
structure Table where
  headers : List String
  rows : List (List CellVal)
deriving DecidableEq

/- ---------- character-list string primitives ----------
All string work happens on `List Char` so that every definition reduces in
the kernel.  These mirror the exact Python string operations used by the
source (`str.strip`, `str.lower`, `str.split`, `str.replace`, `in`). -/

/-- Test that the first character list is a prefix of the second. -/
def charsPre : List Char → List Char → Bool
  | [], _ => true
  | _ :: _, [] => false
  | a :: as, b :: bs => a == b && charsPre as bs

/-- Python `needle in hay` (substring containment) on character lists. -/
def charsSub : List Char → List Char → Bool
  | p, [] => p.isEmpty
  | p, l@(_ :: t) => charsPre p l || charsSub p t

/-- Python `needle in hay` on strings. -/
def strHasSub (hay needle : String) : Bool := charsSub needle.data hay.data

/-- Python `str.strip()`: drop leading and trailing whitespace. -/
def trimChars (l : List Char) : List Char :=
  ((l.dropWhile Char.isWhitespace).reverse.dropWhile Char.isWhitespace).reverse

/-- Python `str.strip()` on a `String`. -/
def trimStr (s : String) : String := String.mk (trimChars s.data)

/-- Python `str.lower()` on a `String` (ASCII case mapping). -/
def lowerStr (s : String) : String := String.mk (s.data.map Char.toLower)

/-- Python `s.replace(c, "")`: remove every occurrence of one character. -/
def removeChar (c : Char) (l : List Char) : List Char := l.filter (fun d => d != c)

/-- Python `s.replace(a, b)` for one-character patterns. -/
def mapChar (a b : Char) (l : List Char) : List Char :=
  l.map (fun d => if d == a then b else d)

/-- Python `s.split(c)` on character lists (returns the separated pieces,
empty pieces included). -/
def splitOnChar (c : Char) : List Char → List (List Char)
  | [] => [[]]
  | d :: rest =>
    if d == c then [] :: splitOnChar c rest
    else
      match splitOnChar c rest with
      | h :: t => (d :: h) :: t
      | [] => [[d]]

/-- The numeric value of a nonempty all-digit character list
(the digit-run acceptance of `int` / `strptime`). -/
def digitsVal (l : List Char) : Option Nat :=
  if l.isEmpty || !(l.all Char.isDigit) then none
  else some (l.foldl (fun acc c => acc * 10 + (c.toNat - 48)) 0)

/-- Decimal digits of a natural number (fuel-indexed so it reduces). -/
def natDigitsAux : Nat → Nat → List Char
  | 0, _ => []
  | Nat.succ f, n => if n == 0 then [] else natDigitsAux f (n / 10) ++ [Nat.digitChar (n % 10)]

/-- Decimal rendering of a natural number. -/
def natChars (n : Nat) : List Char := if n == 0 then ['0'] else natDigitsAux n n

/-- Decimal rendering of an integer. -/
def intChars : Int → List Char
  | Int.ofNat n => natChars n
  | Int.negSucc n => '-' :: natChars (n + 1)

/-- Python `str(x)` for a float value, to the extent the pipeline observes it
(the rendering is only ever fed to keyword containment and date parsing,
never parsed back as a number). -/
def floatChars (q : ℚ) : List Char :=
  if q.den == 1 then intChars q.num ++ ['.', '0']
  else intChars q.num ++ '/' :: natChars q.den

/-- Python `str(x)` applied to a cell, as pandas `astype(str)` renders it:
a missing value becomes the text `"nan"`. -/
def cellToStr : CellVal → String
  | CellVal.na => "nan"
  | CellVal.num q => String.mk (floatChars q)
  | CellVal.text s => s

/- ---------- `_to_number` ---------- -/

/-- The regex search `\d+,\d{3}` succeeding at the head of the list:
a digit, a comma, then three digits. -/
def groupAtHead : List Char → Bool
  | a :: b :: c :: d :: e :: _ => a.isDigit && b == ',' && c.isDigit && d.isDigit && e.isDigit
  | _ => false

/-- The search `re.search(r"\d+,\d{3}", s)` succeeding anywhere in the string. -/
def hasGroupPat : List Char → Bool
  | [] => false
  | l@(_ :: t) => groupAtHead l || hasGroupPat t

/-- The separator normalisation of `_to_number`: strip spaces; if the text
shows a comma-grouped integer pattern and no dot, drop the commas; otherwise
drop the dots and turn the comma into the decimal dot. -/
def cleanNumChars (l0 : List Char) : List Char :=
  let l := removeChar ' ' l0
  if hasGroupPat l && !(l.contains '.') then removeChar ',' l
  else mapChar ',' '.' (removeChar '.' l)

/-- Split off an exponent part at the first `e`/`E`, if any. -/
def splitExp : List Char → (List Char × Option (List Char))
  | [] => ([], none)
  | c :: rest =>
    if c == 'e' || c == 'E' then ([], some rest)
    else
      let p := splitExp rest
      (c :: p.1, p.2)

/-- Strip one optional leading sign; returns (isNegative, rest). -/
def takeSign : List Char → (Bool × List Char)
  | '+' :: r => (false, r)
  | '-' :: r => (true, r)
  | l => (false, l)

/-- The mantissa `digits [. digits]` of a float literal, as a scaled pair
(numerator, power-of-ten denominator); at least one digit overall. -/
def parseMantissa (l : List Char) : Option (Nat × Nat) :=
  match splitOnChar '.' l with
  | [ip] => (digitsVal ip).map (fun v => (v, 1))
  | [ip, fp] =>
    if ip.isEmpty && fp.isEmpty then none
    else if !(ip.all Char.isDigit) || !(fp.all Char.isDigit) then none
    else
      some (ip.foldl (fun acc c => acc * 10 + (c.toNat - 48)) 0 * 10 ^ fp.length +
              fp.foldl (fun acc c => acc * 10 + (c.toNat - 48)) 0,
            10 ^ fp.length)
  | _ => none

/-- Python `float(s)` on the decimal grammar
`[sign] digits [. digits] [(e|E) [sign] digits]` (the shapes `_to_number`
feeds it; `inf`/`nan` words and digit underscores are outside the model —
a Python `float("nan")` result is erased to `0.0` by the series `fillna`
anyway). -/
def parseFloatQ (l : List Char) : Option ℚ :=
  let s := takeSign l
  let me := splitExp s.2
  match parseMantissa me.1 with
  | none => none
  | some (n, d) =>
    let signedNum : Int := if s.1 then -(n : Int) else (n : Int)
    match me.2 with
    | none => some (mkRat signedNum d)
    | some ex =>
      let es := takeSign ex
      match digitsVal es.2 with
      | none => none
      | some e =>
        if es.1 then some (mkRat signedNum (d * 10 ^ e))
        else some (mkRat (signedNum * (10 : Int) ^ e) d)

/-- Mirror of `_to_number` on one cell: missing → 0.0; numeric → itself; text →
separator-normalised float parse, falling back to 0.0 (a failed `float` goes
to `pd.to_numeric(..., errors="coerce")`, i.e. `NaN`, which the trailing
`fillna(0.0)` turns into 0). -/
def toNumber : CellVal → ℚ
  | CellVal.na => 0
  | CellVal.num q => q
  | CellVal.text s =>
    match parseFloatQ (cleanNumChars s.data) with
    | some q => q
    | none => 0

/- ---------- `_to_datetime` ---------- -/

/-- A parsed timestamp (the time fields come from the `%H:%M:%S` formats and
default to zero). -/
structure DateTime where
  year : Nat
  month : Nat
  day : Nat
  hour : Nat
  minute : Nat
  second : Nat
deriving DecidableEq

/-- Gregorian leap year. -/
def isLeap (y : Nat) : Bool := (y % 4 == 0 && y % 100 != 0) || y % 400 == 0

/-- Days in a month. -/
def daysInMonth (y m : Nat) : Nat :=
  if m == 2 then (if isLeap y then 29 else 28)
  else if m == 4 || m == 6 || m == 9 || m == 11 then 30
  else 31

/-- Calendar validity of a year/month/day triple (what `strptime` and the
flexible parser accept). -/
def validYMD (y m d : Nat) : Bool :=
  1 ≤ m && m ≤ 12 && 1 ≤ d && d ≤ daysInMonth y m

/-- Field acceptance of `strptime`: all digits, between 1 and `w` of them. -/
def fieldNat (w : Nat) (l : List Char) : Option Nat :=
  if l.length ≤ w then digitsVal l else none

/-- The strict format `day sep month sep year` (`%d/%m/%Y`, `%d-%m-%Y`). -/
def pDMY (sep : Char) (l : List Char) : Option DateTime :=
  match splitOnChar sep l with
  | [d, m, y] =>
    match fieldNat 2 d, fieldNat 2 m, fieldNat 4 y with
    | some dv, some mv, some yv =>
      if validYMD yv mv dv then some ⟨yv, mv, dv, 0, 0, 0⟩ else none
    | _, _, _ => none
  | _ => none

/-- The strict format `%m/%d/%Y`. -/
def pMDY (l : List Char) : Option DateTime :=
  match splitOnChar '/' l with
  | [m, d, y] =>
    match fieldNat 2 d, fieldNat 2 m, fieldNat 4 y with
    | some dv, some mv, some yv =>
      if validYMD yv mv dv then some ⟨yv, mv, dv, 0, 0, 0⟩ else none
    | _, _, _ => none
  | _ => none

/-- The strict format `%Y-%m-%d`. -/
def pYMD (l : List Char) : Option DateTime :=
  match splitOnChar '-' l with
  | [y, m, d] =>
    match fieldNat 2 d, fieldNat 2 m, fieldNat 4 y with
    | some dv, some mv, some yv =>
      if validYMD yv mv dv then some ⟨yv, mv, dv, 0, 0, 0⟩ else none
    | _, _, _ => none
  | _ => none

/-- The strict time suffix `%H:%M:%S`. -/
def pTime (l : List Char) : Option (Nat × Nat × Nat) :=
  match splitOnChar ':' l with
  | [h, m, s] =>
    match fieldNat 2 h, fieldNat 2 m, fieldNat 2 s with
    | some hv, some mv, some sv =>
      if hv ≤ 23 && mv ≤ 59 && sv ≤ 61 then some (hv, mv, sv) else none
    | _, _, _ => none
  | _ => none

/-- The strict format `%d/%m/%Y %H:%M:%S`. -/
def pDMYTime (l : List Char) : Option DateTime :=
  match splitOnChar ' ' l with
  | [dp, tp] =>
    match pDMY '/' dp, pTime tp with
    | some dt, some t => some { dt with hour := t.1, minute := t.2.1, second := t.2.2 }
    | _, _ => none
  | _ => none

/-- The strict format `%Y-%m-%d %H:%M:%S`. -/
def pYMDTime (l : List Char) : Option DateTime :=
  match splitOnChar ' ' l with
  | [dp, tp] =>
    match pYMD dp, pTime tp with
    | some dt, some t => some { dt with hour := t.1, minute := t.2.1, second := t.2.2 }
    | _, _ => none
  | _ => none

/-- Resolution of a numeric date triple under `dayfirst=True`: a four-digit
final part is the year and the day is preferred first; a four-digit leading
part is an ISO-ordered date. -/
def tripleResolve (parts : List (List Char)) : Option DateTime :=
  match parts with
  | [a, b, c] =>
    match digitsVal a, digitsVal b, digitsVal c with
    | some av, some bv, some cv =>
      if c.length == 4 then
        if validYMD cv bv av then some ⟨cv, bv, av, 0, 0, 0⟩
        else if validYMD cv av bv then some ⟨cv, av, bv, 0, 0, 0⟩
        else none
      else if a.length == 4 then
        if validYMD av bv cv then some ⟨av, bv, cv, 0, 0, 0⟩ else none
      else none
    | _, _, _ => none
  | _ => none

/-- The plain `pd.to_datetime(s, dayfirst=True)` call, modelled on numeric
day/month/year triples separated by `/` or `-` (the statement-export shapes
this pipeline sees); other library-recognised spellings are outside the
model and fall through to the strict formats. -/
def flexParse (l : List Char) : Option DateTime :=
  if l.contains '/' then tripleResolve (splitOnChar '/' l)
  else if l.contains '-' then tripleResolve (splitOnChar '-' l)
  else none

/-- The ordered pattern list of `_to_datetime`: the flexible day-first parse,
then `%d/%m/%Y`, `%Y-%m-%d`, `%d-%m-%Y`, `%m/%d/%Y`, and the two
time-suffixed formats. -/
def datePatterns : List (List Char → Option DateTime) :=
  [flexParse, pDMY '/', pYMD, pDMY '-', pMDY, pDMYTime, pYMDTime]

/-- First parser in the list that succeeds wins; all failing yields `none`
(the `for fmt in [...]: try/except continue` loop). -/
def firstSuccess : List (List Char → Option DateTime) → List Char → Option DateTime
  | [], _ => none
  | p :: ps, s =>
    match p s with
    | some d => some d
    | none => firstSuccess ps s

/-- Date parsing of one stripped text value. -/
def parseDateChars (l : List Char) : Option DateTime := firstSuccess datePatterns l

/-- Mirror of `_to_datetime` on one cell: missing → `NaT`; otherwise `str(x).strip()`
is run through the pattern list, `NaT` when nothing parses. -/
def toDatetimeCell : CellVal → Option DateTime
  | CellVal.na => none
  | CellVal.num q => parseDateChars (trimChars (floatChars q))
  | CellVal.text s => parseDateChars (trimChars s.data)

/- ---------- `_slug` and `guess_columns` ---------- -/

/-- Mirror of `unicodedata.normalize("NFKD", x).encode("ascii","ignore")` for one
character: ASCII passes through, Latin accented letters decompose to their
base letter, any other non-ASCII character is dropped (the Spanish header
vocabulary this resolver targets). -/
def deaccent (c : Char) : List Char :=
  if c.toNat < 128 then [c]
  else if c == 'á' || c == 'à' || c == 'â' || c == 'ä' || c == 'ã' then ['a']
  else if c == 'Á' || c == 'À' || c == 'Â' || c == 'Ä' || c == 'Ã' then ['A']
  else if c == 'é' || c == 'è' || c == 'ê' || c == 'ë' then ['e']
  else if c == 'É' || c == 'È' || c == 'Ê' || c == 'Ë' then ['E']
  else if c == 'í' || c == 'ì' || c == 'î' || c == 'ï' then ['i']
  else if c == 'Í' || c == 'Ì' || c == 'Î' || c == 'Ï' then ['I']
  else if c == 'ó' || c == 'ò' || c == 'ô' || c == 'ö' || c == 'õ' then ['o']
  else if c == 'Ó' || c == 'Ò' || c == 'Ô' || c == 'Ö' || c == 'Õ' then ['O']
  else if c == 'ú' || c == 'ù' || c == 'û' || c == 'ü' then ['u']
  else if c == 'Ú' || c == 'Ù' || c == 'Û' || c == 'Ü' then ['U']
  else if c == 'ñ' then ['n']
  else if c == 'Ñ' then ['N']
  else if c == 'ç' then ['c']
  else if c == 'Ç' then ['C']
  else if c == 'º' then ['o']
  else if c == 'ª' then ['a']
  else []

/-- Collapse runs of consecutive underscores to a single underscore
(together with the non-alphanumeric map below this realises
`re.sub(r"[^a-zA-Z0-9]+", "_", ·)`). -/
def squeezeUnder : List Char → List Char
  | [] => []
  | [c] => [c]
  | a :: b :: rest =>
    if a == '_' && b == '_' then squeezeUnder (b :: rest)
    else a :: squeezeUnder (b :: rest)

/-- Python `str.strip("_")`. -/
def stripUnder (l : List Char) : List Char :=
  ((l.dropWhile (fun c => c == '_')).reverse.dropWhile (fun c => c == '_')).reverse

/-- Mirror of `_slug`: strip whitespace, strip accents to ASCII, lower-case, collapse
non-alphanumeric runs to `_`, strip outer underscores. -/
def slugOf (s : String) : String :=
  let a := trimChars s.data
  let b := (a.map deaccent).flatten.map Char.toLower
  String.mk (stripUnder (squeezeUnder (b.map fun c => if c.isAlpha || c.isDigit then c else '_')))

/-- Lookup in the dict `{_slug(c): c for c in headers}`: a dict comprehension
keeps the LAST header written for a key, so the lookup finds the last header
in input order bearing the slug. -/
def dictLookup (headers : List String) (slug : String) : Option String :=
  headers.reverse.find? (fun h => slugOf h == slug)

/-- The `find` helper of `guess_columns`: first candidate slug present in the
slug dict wins; the dict value (last header with that slug) is returned. -/
def findCol (headers : List String) : List String → Option String
  | [] => none
  | c :: cs =>
    match dictLookup headers c with
    | some orig => some orig
    | none => findCol headers cs

/-- Candidate slugs for the date column. -/
def fechaCands : List String :=
  ["fecha", "fecha_operacion", "fecha_mov", "fecha_debito", "fecha_credito", "date", "posting_date"]

/-- Candidate slugs for the reference column. -/
def refCands : List String :=
  ["referencia", "n_operacion", "nro_operacion", "numero_operacion", "n_referencia", "detalle",
   "descripcion", "concepto", "glosa", "referencia_bancaria", "ref", "memo"]

/-- Candidate slugs for the counterparty-name column. -/
def nombreCands : List String :=
  ["nombre", "nombre_pagador", "pagador", "cliente", "emisor", "beneficiario", "proveedor",
   "titular", "contraparte", "razon_social"]

/-- Candidate slugs for the tax-id column. -/
def cuitCands : List String :=
  ["cuit", "cuil", "dni", "tax_id", "doc", "documento", "id_fiscal"]

/-- Candidate slugs for the description column. -/
def detalleCands : List String :=
  ["detalle", "descripcion", "concepto", "glosa", "referencia", "observaciones"]

/-- Candidate slugs for the credit column. -/
def creditoCands : List String :=
  ["credito", "creditos", "haber", "entrada", "ingreso", "acreditacion", "amount_in", "in"]

/-- Candidate slugs for the debit column. -/
def debitoCands : List String :=
  ["debito", "debitos", "debe", "salida", "egreso", "extraccion", "amount_out", "out"]

/-- Candidate slugs for the single-amount column. -/
def importeCands : List String :=
  ["importe", "monto", "importe_total", "importe_neto", "importe_bruto", "importe_movimiento",
   "monto_total", "amount", "transaction_amount"]

/-- Candidate slugs for the movement-type column. -/
def tipoCands : List String :=
  ["tipo", "tipo_movimiento", "operacion", "movimiento", "cr_db", "debe_haber"]

/-- The resolved column-role map of `guess_columns`. -/
structure ColRoles where
  fecha : Option String
  ref : Option String
  nombre : Option String
  cuit : Option String
  detalle : Option String
  importe : Option String
  credito : Option String
  debito : Option String
  tipo : Option String
deriving DecidableEq

/-- Mirror of `guess_columns`: resolve each role by candidate priority; the description
role falls back to the reference column, then to the first column. -/
def guessColumns (headers : List String) : ColRoles :=
  let r := findCol headers refCands
  let d0 := findCol headers detalleCands
  { fecha := findCol headers fechaCands
    ref := r
    nombre := findCol headers nombreCands
    cuit := findCol headers cuitCands
    detalle :=
      match d0 with
      | some h => some h
      | none => match r with
                | some h => some h
                | none => headers.head?
    importe := findCol headers importeCands
    credito := findCol headers creditoCands
    debito := findCol headers debitoCands
    tipo := findCol headers tipoCands }

/- ---------- `detect_direction_and_amount` ---------- -/

/-- The values of one named column of the table (`df[col]`); a header that is
not present yields missing values (unreachable through `guess_columns`). -/
def colVals (t : Table) (h : String) : List CellVal :=
  match t.headers.findIdx? (fun c => c == h) with
  | some i => t.rows.map (fun r => r.getD i CellVal.na)
  | none => t.rows.map (fun _ => CellVal.na)

/-- The inflow keyword group of the type-column stage. -/
def inTypeKws : List String :=
  ["credito", "cr", "ingreso", "abono", "deposito", "dep", "acred"]

/-- The outflow keyword group of the type-column stage. -/
def outTypeKws : List String :=
  ["debito", "db", "egreso", "pago", "transferencia_saliente", "extraccion", "cheque"]

/-- Stage-1 direction from the lower-cased type text: any inflow keyword
contained → `"in"`; else any outflow keyword → `"out"`; else `"zero"`. -/
def typeDirection (t : String) : String :=
  if inTypeKws.any (fun k => strHasSub t k) then "in"
  else if outTypeKws.any (fun k => strHasSub t k) then "out"
  else "zero"

/-- Stage-2 sign inference: positive → `"in"`, negative → `"out"`,
zero → `"zero"`. -/
def signDirection (v : ℚ) : String :=
  if 0 < v then "in" else if v < 0 then "out" else "zero"

/-- Mirror of `detect_direction_and_amount`: the signed amount series (credit − debit,
else the amount column, else zeros) and the direction series (stage-1 type
keywords, masked by stage-2 sign inference wherever stage 1 left
`"zero"`). -/
def detectDirectionAndAmount (t : Table) (colImporte colCredito colDebito colTipo : Option String) :
    List ℚ × List String :=
  let n := t.rows.length
  let importe : List ℚ :=
    match colCredito, colDebito with
    | some cc, some cd =>
      List.zipWith (fun a b => a - b) ((colVals t cc).map toNumber) ((colVals t cd).map toNumber)
    | _, _ =>
      match colImporte with
      | some ci => (colVals t ci).map toNumber
      | none => List.replicate n 0
  let dir1 : List String :=
    match colTipo with
    | some ct => (colVals t ct).map (fun c => typeDirection (lowerStr (cellToStr c)))
    | none => List.replicate n "zero"
  let signB := importe.map signDirection
  (importe, List.zipWith (fun d s => if d == "zero" then s else d) dir1 signB)

/- ---------- `categorize_rows` and `build_output_sheets` ---------- -/

/-- Case-insensitive keyword containment (`any(k in t for k in kws)`), the
detail text being already lower-cased by the caller. -/
def containsKw (kws : List String) (s : String) : Bool :=
  kws.any (fun k => strHasSub s k)

/-- The default fee keyword list of `categorize_rows` (the second and final
entries of the accented pair appear in the source bytes exactly as written
here). -/
def defaultKwComisiones : List String :=
  ["comision", "comisiÃ³n", "gasto de mantenimiento", "cargo", "tarifa", "servicio bancario",
   "mantenimiento", "seguro de cuenta"]

/-- The default tax keyword list of `categorize_rows`. -/
def defaultKwImpuestos : List String :=
  ["impuesto", "iva", "i.v.a", "retencion", "retenciÃ³n", "perc", "percepcion",
   "impuesto debitos y creditos", "impuesto a los debitos", "impuesto al cheque", "ley 25413", "idc"]

/-- One fully-assembled row of the classification pass: the base-frame
columns (`fecha`, `referencia`, `nombre`, `cuit`, `detalle`, `importe`),
the lower-cased text the keyword masks were computed from, the two keyword
mask bits, and the direction. -/
structure RowInfo where
  fecha : Option DateTime
  referencia : String
  nombre : String
  cuit : String
  detalle : String
  importe : ℚ
  ktext : String
  com : Bool
  imp : Bool
  dir : String
deriving DecidableEq

/-- A default `RowInfo` (used only as the out-of-range default of `getD`). -/
def dfltRowInfo : RowInfo :=
  ⟨none, "", "", "", "", 0, "", false, false, ""⟩

/-- The per-row assembly of `build_output_sheets`: the `base` dataframe
(column selection with `astype(str)` and the parsed date), the
`categorize_rows` masks (computed from the lower-cased detail column —
falling back to the reference column, then the first column), and the
direction column attached to `remaining` (index-aligned, i.e. row `i`
receives direction `i`). -/
def rowInfoList (t : Table) (fechaCol refCol nombreCol cuitCol detalleCol : Option String)
    (importeS : List ℚ) (directionS : List String) (kwCom kwImp : List String) : List RowInfo :=
  let n := t.rows.length
  let fechaOut : List (Option DateTime) :=
    match fechaCol with
    | some h => (colVals t h).map toDatetimeCell
    | none => List.replicate n none
  let strCol : Option String → List String := fun oc =>
    match oc with
    | some h => (colVals t h).map cellToStr
    | none => List.replicate n ""
  let refOut := strCol refCol
  let nombreOut := strCol nombreCol
  let cuitOut := strCol cuitCol
  let detalleOut := strCol detalleCol
  let detChoice : Option String :=
    match detalleCol with
    | some h => some h
    | none => match refCol with
              | some h => some h
              | none => t.headers.head?
  let ktexts : List String :=
    match detChoice with
    | some h => (colVals t h).map (fun c => lowerStr (cellToStr c))
    | none => List.replicate n ""
  (List.range n).map fun i =>
    let kt := ktexts.getD i ""
    { fecha := fechaOut.getD i none
      referencia := refOut.getD i ""
      nombre := nombreOut.getD i ""
      cuit := cuitOut.getD i ""
      detalle := detalleOut.getD i ""
      importe := importeS.getD i 0
      ktext := kt
      com := containsKw kwCom kt
      imp := containsKw kwImp kt
      dir := directionS.getD i "" }

/-- Sheet-1/2 output shape (received/paid): date, reference, counterparty
name, tax id, amount. -/
structure PayRow where
  fecha : Option DateTime
  referencia : String
  nombre : String
  cuit : String
  importe : ℚ
deriving DecidableEq

/-- Sheet-3/4/5 output shape: debit date, reference, detail, amount. -/
structure DebitRow where
  fecha : Option DateTime
  referencia : String
  detalle : String
  importe : ℚ
deriving DecidableEq

/-- Row filter of sheet 1: not fee, not tax, direction `"in"`. -/
def p1 (x : RowInfo) : Bool := !x.com && !x.imp && x.dir == "in"

/-- Row filter of sheet 2: not fee, not tax, direction `"out"`. -/
def p2 (x : RowInfo) : Bool := !x.com && !x.imp && x.dir == "out"

/-- Row filter of sheet 3: the fee mask. -/
def p3 (x : RowInfo) : Bool := x.com

/-- Row filter of sheet 4: the tax mask. -/
def p4 (x : RowInfo) : Bool := x.imp

/-- Both name and tax id stripped-empty. -/
def emptyNC (x : RowInfo) : Bool :=
  (trimChars x.nombre.data).isEmpty && (trimChars x.cuit.data).isEmpty

/-- Row filter of sheet 5: not fee, not tax, and direction `"zero"` or an
empty counterparty. -/
def p5 (x : RowInfo) : Bool := !x.com && !x.imp && (x.dir == "zero" || emptyNC x)

/-- Projection onto the sheet-1/2 columns. -/
def payProj (x : RowInfo) : PayRow := ⟨x.fecha, x.referencia, x.nombre, x.cuit, x.importe⟩

/-- Projection onto the sheet-3/4 columns. -/
def debitProj (x : RowInfo) : DebitRow := ⟨x.fecha, x.referencia, x.detalle, x.importe⟩

/-- Projection onto the sheet-5 columns: the detail is overwritten with the
literal `"Sin Identificacion"`. -/
def unidProj (x : RowInfo) : DebitRow := ⟨x.fecha, x.referencia, "Sin Identificacion", x.importe⟩

/-- Stable insertion into a sorted list: the new element goes after every
element that compares ≤ to it. -/
def sInsert (le : α → α → Bool) (x : α) : List α → List α
  | [] => [x]
  | y :: ys => if le y x then y :: sInsert le x ys else x :: y :: ys

/-- Stable sort (`sort_values(kind="stable")`): earlier rows are inserted
first, so ties keep their original relative order. -/
def stableSort (le : α → α → Bool) (l : List α) : List α :=
  l.foldl (fun acc x => sInsert le x acc) []

/-- Python string comparison (lexicographic on code points). -/
def strLeB (a b : String) : Bool :=
  let rec go : List Char → List Char → Bool
    | [], _ => true
    | _ :: _, [] => false
    | x :: xs, y :: ys =>
      if x.toNat < y.toNat then true
      else if y.toNat < x.toNat then false
      else go xs ys
  go a.data b.data

/-- Strict lexicographic order on timestamps. -/
def dtLtB (a b : DateTime) : Bool :=
  if a.year ≠ b.year then a.year < b.year
  else if a.month ≠ b.month then a.month < b.month
  else if a.day ≠ b.day then a.day < b.day
  else if a.hour ≠ b.hour then a.hour < b.hour
  else if a.minute ≠ b.minute then a.minute < b.minute
  else a.second < b.second

/-- The `sort_values(by=[date, "referencia"], na_position="last")` key order:
a missing date sorts last; equal dates fall back to the reference string. -/
def keyLe (fa : Option DateTime) (ra : String) (fb : Option DateTime) (rb : String) : Bool :=
  match fa, fb with
  | none, none => strLeB ra rb
  | none, some _ => false
  | some _, none => true
  | some a, some b =>
    if dtLtB a b then true else if dtLtB b a then false else strLeB ra rb

/-- Sheet-1/2 sort order. -/
def payLe (a b : PayRow) : Bool := keyLe a.fecha a.referencia b.fecha b.referencia

/-- Sheet-3/4/5 sort order. -/
def debitLe (a b : DebitRow) : Bool := keyLe a.fecha a.referencia b.fecha b.referencia

/-- The five output tables. -/
structure Sheets where
  sh1 : List PayRow
  sh2 : List PayRow
  sh3 : List DebitRow
  sh4 : List DebitRow
  sh5 : List DebitRow
deriving DecidableEq

/-- The five sheet constructions of `build_output_sheets` over the assembled
rows: boolean-mask selection, column projection, and the stable
date/reference sort of each sheet. -/
def sheetsOfInfo (info : List RowInfo) : Sheets :=
  { sh1 := stableSort payLe ((info.filter p1).map payProj)
    sh2 := stableSort payLe ((info.filter p2).map payProj)
    sh3 := stableSort debitLe ((info.filter p3).map debitProj)
    sh4 := stableSort debitLe ((info.filter p4).map debitProj)
    sh5 := stableSort debitLe ((info.filter p5).map unidProj) }

/-- Mirror of `build_output_sheets`. -/
def buildOutputSheets (t : Table) (fechaCol refCol nombreCol cuitCol detalleCol : Option String)
    (importeS : List ℚ) (directionS : List String) (kwCom kwImp : List String) : Sheets :=
  sheetsOfInfo (rowInfoList t fechaCol refCol nombreCol cuitCol detalleCol importeS directionS kwCom kwImp)

/-- The header-stripped table of `process_dataframe`
(`df.columns = [str(c).strip() for c in df.columns]`). -/
def stripTable (t0 : Table) : Table := ⟨t0.headers.map trimStr, t0.rows⟩

/-- The column-role map `process_dataframe` works with. -/
def pipelineRoles (t0 : Table) : ColRoles := guessColumns (stripTable t0).headers

/-- The amount and direction series `process_dataframe` computes. -/
def pipelineAD (t0 : Table) : List ℚ × List String :=
  detectDirectionAndAmount (stripTable t0) (pipelineRoles t0).importe (pipelineRoles t0).credito
    (pipelineRoles t0).debito (pipelineRoles t0).tipo

/-- The assembled classification rows of the whole `process_dataframe`
pipeline (headers stripped, roles guessed, amount and direction detected). -/
def pipelineInfo (t0 : Table) (kwCom kwImp : List String) : List RowInfo :=
  rowInfoList (stripTable t0) (pipelineRoles t0).fecha (pipelineRoles t0).ref
    (pipelineRoles t0).nombre (pipelineRoles t0).cuit (pipelineRoles t0).detalle
    (pipelineAD t0).1 (pipelineAD t0).2 kwCom kwImp

/-- Mirror of `process_dataframe`: strip the headers, guess the roles, detect amount
and direction, build the five sheets. -/
def processDataframe (t0 : Table) (kwCom kwImp : List String) : Sheets :=
  buildOutputSheets (stripTable t0) (pipelineRoles t0).fecha (pipelineRoles t0).ref
    (pipelineRoles t0).nombre (pipelineRoles t0).cuit (pipelineRoles t0).detalle
    (pipelineAD t0).1 (pipelineAD t0).2 kwCom kwImp

/-- A row matching both keyword sets (it is copied into sheet 3 AND
sheet 4). -/
def bothKW (x : RowInfo) : Bool := x.com && x.imp

/-- A non-keyword directional row with empty counterparty (it is copied into
sheet 1 or 2 AND sheet 5). -/
def dupRecvUnid (x : RowInfo) : Bool :=
  !x.com && !x.imp && (x.dir == "in" || x.dir == "out") && emptyNC x

/- ---------- generic list lemmas ---------- -/

theorem getD_mem_of_lt {α : Type} (l : List α) (i : Nat) (d : α) (h : i < l.length) :
    l.getD i d ∈ l := by
  rw [List.getD_eq_getElem l d h]
  exact List.getElem_mem h

theorem mem_zipWith {α β γ : Type} {f : α → β → γ} :
    ∀ {as : List α} {bs : List β} {y : γ}, y ∈ List.zipWith f as bs →
      ∃ a b, a ∈ as ∧ b ∈ bs ∧ y = f a b := by
  intro as
  induction as with
  | nil => intro bs y h; simp [List.zipWith] at h
  | cons a as ih =>
    intro bs y h
    cases bs with
    | nil => simp [List.zipWith] at h
    | cons b bs =>
      rw [List.zipWith_cons_cons] at h
      rcases List.mem_cons.1 h with h | h
      · exact ⟨a, b, List.mem_cons_self a as, List.mem_cons_self b bs, h⟩
      · rcases ih h with ⟨a2, b2, ha, hb, rfl⟩
        exact ⟨a2, b2, List.mem_cons_of_mem a ha, List.mem_cons_of_mem b hb, rfl⟩

theorem length_sInsert {α : Type} (le : α → α → Bool) (x : α) :
    ∀ l : List α, (sInsert le x l).length = l.length + 1 := by
  intro l
  induction l with
  | nil => rfl
  | cons y ys ih =>
    unfold sInsert
    by_cases h : le y x
    · simp [h, ih]
    · simp [h]

theorem mem_sInsert {α : Type} (le : α → α → Bool) (x y : α) :
    ∀ l : List α, (y ∈ sInsert le x l ↔ y = x ∨ y ∈ l) := by
  intro l
  induction l with
  | nil => simp [sInsert]
  | cons z zs ih =>
    unfold sInsert
    by_cases h : le z x
    · rw [if_pos h]
      simp only [List.mem_cons, ih]
      try tauto
    · rw [if_neg h]
      simp only [List.mem_cons]
      try tauto

theorem length_stableSort_aux {α : Type} (le : α → α → Bool) :
    ∀ (l acc : List α), (l.foldl (fun a x => sInsert le x a) acc).length = acc.length + l.length := by
  intro l
  induction l with
  | nil => intro acc; simp
  | cons x xs ih =>
    intro acc
    simp only [List.foldl_cons]
    rw [ih (sInsert le x acc), length_sInsert]
    simp only [List.length_cons]
    omega

theorem length_stableSort {α : Type} (le : α → α → Bool) (l : List α) :
    (stableSort le l).length = l.length := by
  unfold stableSort
  rw [length_stableSort_aux]
  simp

theorem mem_stableSort_aux {α : Type} (le : α → α → Bool) :
    ∀ (l acc : List α) (y : α), (y ∈ l.foldl (fun a x => sInsert le x a) acc ↔ y ∈ acc ∨ y ∈ l) := by
  intro l
  induction l with
  | nil => intro acc y; simp
  | cons x xs ih =>
    intro acc y
    simp only [List.foldl_cons]
    rw [ih (sInsert le x acc) y]
    rw [mem_sInsert]
    simp [List.mem_cons]
    tauto

theorem mem_stableSort {α : Type} (le : α → α → Bool) (l : List α) (y : α) :
    y ∈ stableSort le l ↔ y ∈ l := by
  unfold stableSort
  rw [mem_stableSort_aux]
  simp

/- ---------- pipeline component lemmas ---------- -/

theorem length_colVals (t : Table) (h : String) : (colVals t h).length = t.rows.length := by
  unfold colVals
  cases t.headers.findIdx? (fun c => c == h) <;> simp

theorem detect_fst_length (t : Table) (ci cc cd ct : Option String) :
    (detectDirectionAndAmount t ci cc cd ct).1.length = t.rows.length := by
  unfold detectDirectionAndAmount
  cases cc <;> cases cd <;> cases ci <;>
    simp [length_colVals, List.length_zipWith]

theorem detect_snd_length (t : Table) (ci cc cd ct : Option String) :
    (detectDirectionAndAmount t ci cc cd ct).2.length = t.rows.length := by
  unfold detectDirectionAndAmount
  cases ct <;> cases cc <;> cases cd <;> cases ci <;>
    simp [length_colVals, List.length_zipWith]

theorem typeDirection_mem (s : String) :
    typeDirection s = "in" ∨ typeDirection s = "out" ∨ typeDirection s = "zero" := by
  unfold typeDirection
  by_cases h1 : inTypeKws.any (fun k => strHasSub s k)
  · simp [h1]
  · by_cases h2 : outTypeKws.any (fun k => strHasSub s k)
    · simp [h1, h2]
    · simp [h1, h2]

theorem signDirection_mem (v : ℚ) :
    signDirection v = "in" ∨ signDirection v = "out" ∨ signDirection v = "zero" := by
  unfold signDirection
  by_cases h1 : 0 < v
  · simp [h1]
  · by_cases h2 : v < 0
    · simp [h1, h2]
    · simp [h1, h2]

theorem signDirection_eq_zero {v : ℚ} (h : signDirection v = "zero") : v = 0 := by
  unfold signDirection at h
  by_cases h1 : 0 < v
  · rw [if_pos h1] at h
    exact absurd h (by decide)
  · rw [if_neg h1] at h
    by_cases h2 : v < 0
    · rw [if_pos h2] at h
      exact absurd h (by decide)
    · exact le_antisymm (not_lt.1 h1) (not_lt.1 h2)

theorem detect_dir_mem (t : Table) (ci cc cd ct : Option String) :
    ∀ y ∈ (detectDirectionAndAmount t ci cc cd ct).2,
      y = "in" ∨ y = "out" ∨ y = "zero" := by
  intro y hy
  unfold detectDirectionAndAmount at hy
  simp only [] at hy
  rcases mem_zipWith hy with ⟨a, b, ha, hb, rfl⟩
  by_cases hz : a == "zero"
  · rw [if_pos hz]
    rcases List.mem_map.1 hb with ⟨v, _, rfl⟩
    exact signDirection_mem v
  · rw [if_neg hz]
    cases ct with
    | none =>
      simp only [] at ha
      exact Or.inr (Or.inr (List.eq_of_mem_replicate ha))
    | some c =>
      simp only [] at ha
      rcases List.mem_map.1 ha with ⟨v, _, rfl⟩
      exact typeDirection_mem _

theorem length_rowInfoList (t : Table) (fc rc nc cc dc : Option String)
    (imps : List ℚ) (dirs : List String) (kwC kwI : List String) :
    (rowInfoList t fc rc nc cc dc imps dirs kwC kwI).length = t.rows.length := by
  unfold rowInfoList
  simp

theorem mem_rowInfoList (t : Table) (fc rc nc cc dc : Option String)
    (imps : List ℚ) (dirs : List String) (kwC kwI : List String) {x : RowInfo}
    (hx : x ∈ rowInfoList t fc rc nc cc dc imps dirs kwC kwI) :
    ∃ i, i < t.rows.length ∧ x.dir = dirs.getD i "" ∧ x.importe = imps.getD i 0 ∧
      x.com = containsKw kwC x.ktext ∧ x.imp = containsKw kwI x.ktext := by
  unfold rowInfoList at hx
  rcases List.mem_map.1 hx with ⟨i, hi, rfl⟩
  exact ⟨i, List.mem_range.1 hi, rfl, rfl, rfl, rfl⟩

theorem pipelineInfo_length (t : Table) (kwC kwI : List String) :
    (pipelineInfo t kwC kwI).length = t.rows.length := by
  unfold pipelineInfo
  rw [length_rowInfoList]
  rfl

theorem pipelineInfo_dir_mem (t : Table) (kwC kwI : List String) :
    ∀ x ∈ pipelineInfo t kwC kwI, x.dir = "in" ∨ x.dir = "out" ∨ x.dir = "zero" := by
  intro x hx
  unfold pipelineInfo at hx
  rcases mem_rowInfoList _ _ _ _ _ _ _ _ _ _ hx with ⟨i, hi, hdir, -⟩
  rw [hdir]
  have hlen : (pipelineAD t).2.length = (stripTable t).rows.length := by
    unfold pipelineAD
    exact detect_snd_length _ _ _ _ _
  have hi2 : i < (pipelineAD t).2.length := by
    rw [hlen]; exact hi
  have hmem := getD_mem_of_lt (pipelineAD t).2 i "" hi2
  unfold pipelineAD at hmem
  exact detect_dir_mem _ _ _ _ _ _ hmem

/- ---------- string-literal disequalities for the mask case analysis ---------- -/

theorem bqOutIn : (("out" : String) == "in") = false := by decide

theorem bqZeroIn : (("zero" : String) == "in") = false := by decide

theorem bqInOut : (("in" : String) == "out") = false := by decide

theorem bqZeroOut : (("zero" : String) == "out") = false := by decide

theorem bqInZero : (("in" : String) == "zero") = false := by decide

theorem bqOutZero : (("out" : String) == "zero") = false := by decide

/- ---------- the five-way sheet count ---------- -/

theorem weight_ptwise (x : RowInfo) (hdir : x.dir = "in" ∨ x.dir = "out" ∨ x.dir = "zero") :
    ((if p1 x = true then 1 else 0) + (if p2 x = true then 1 else 0) +
      (if p3 x = true then 1 else 0) + (if p4 x = true then 1 else 0) +
      (if p5 x = true then 1 else 0) : Nat)
      = 1 + (if bothKW x = true then 1 else 0) + (if dupRecvUnid x = true then 1 else 0) := by
  rcases hdir with h | h | h <;> cases hc : x.com <;> cases hi : x.imp <;> cases he : emptyNC x <;>
    simp [p1, p2, p3, p4, p5, bothKW, dupRecvUnid, hc, hi, he, h,
      bqOutIn, bqZeroIn, bqInOut, bqZeroOut, bqInZero, bqOutZero]

theorem countP_five (l : List RowInfo)
    (hdir : ∀ x ∈ l, x.dir = "in" ∨ x.dir = "out" ∨ x.dir = "zero") :
    l.countP p1 + l.countP p2 + l.countP p3 + l.countP p4 + l.countP p5
      = l.length + l.countP bothKW + l.countP dupRecvUnid := by
  induction l with
  | nil => simp
  | cons a l ih =>
    have ha := hdir a (List.mem_cons_self a l)
    have hl : ∀ x ∈ l, x.dir = "in" ∨ x.dir = "out" ∨ x.dir = "zero" :=
      fun x hx => hdir x (List.mem_cons_of_mem a hx)
    have hw := weight_ptwise a ha
    have hrec := ih hl
    simp only [List.countP_cons, List.length_cons]
    omega

/- ---------- sheet-level lemmas ---------- -/

theorem sheetsOfInfo_lengths (info : List RowInfo) :
    (sheetsOfInfo info).sh1.length = info.countP p1 ∧
    (sheetsOfInfo info).sh2.length = info.countP p2 ∧
    (sheetsOfInfo info).sh3.length = info.countP p3 ∧
    (sheetsOfInfo info).sh4.length = info.countP p4 ∧
    (sheetsOfInfo info).sh5.length = info.countP p5 := by
  unfold sheetsOfInfo
  refine ⟨?_, ?_, ?_, ?_, ?_⟩ <;>
    simp [length_stableSort, List.countP_eq_length_filter]

theorem mem_sorted_sheet {β : Type} [DecidableEq β] (le : β → β → Bool) (p : RowInfo → Bool)
    (proj : RowInfo → β) (info : List RowInfo) (x : RowInfo)
    (hx : x ∈ info) (hp : p x = true) :
    proj x ∈ stableSort le ((info.filter p).map proj) := by
  rw [mem_stableSort]
  exact List.mem_map_of_mem proj (List.mem_filter.2 ⟨hx, hp⟩)

theorem sheet_filter_nil {β : Type} (le : β → β → Bool) (p : RowInfo → Bool)
    (proj : RowInfo → β) (info : List RowInfo) (h : ∀ x ∈ info, p x = false) :
    stableSort le ((info.filter p).map proj) = [] := by
  have hf : info.filter p = [] :=
    List.filter_eq_nil_iff.2 (fun a ha => by rw [h a ha]; exact Bool.false_ne_true)
  rw [hf]
  rfl

theorem sheet_filter_all_length {β : Type} (le : β → β → Bool) (p : RowInfo → Bool)
    (proj : RowInfo → β) (info : List RowInfo) (h : ∀ x ∈ info, p x = true) :
    (stableSort le ((info.filter p).map proj)).length = info.length := by
  have hf : info.filter p = info := List.filter_eq_self.2 h
  rw [length_stableSort, hf, List.length_map]

theorem pipelineInfo_masks (t : Table) (kwC kwI : List String) {x : RowInfo}
    (hx : x ∈ pipelineInfo t kwC kwI) :
    x.com = containsKw kwC x.ktext ∧ x.imp = containsKw kwI x.ktext := by
  unfold pipelineInfo at hx
  rcases mem_rowInfoList _ _ _ _ _ _ _ _ _ _ hx with ⟨i, -, -, -, hc, hi2⟩
  exact ⟨hc, hi2⟩

theorem processDataframe_eq (t : Table) (kwC kwI : List String) :
    processDataframe t kwC kwI = sheetsOfInfo (pipelineInfo t kwC kwI) := rfl

/-- C1: the five sheets of `build_output_sheets` do NOT partition the input —
the masks of sheets 3 and 4 are applied independently (a row matching both
keyword sets is copied into both), and the empty-counterparty disjunct of
sheet 5 does not remove the row from sheet 1/2.  The sheet row counts sum to
the input row count PLUS the number of rows matching both keyword sets PLUS
the number of non-keyword directional rows with stripped-empty name and tax
id; in particular every row lands in at least one sheet (the partition is
total but not disjoint). -/
theorem claim1_sheet_counts (t : Table) (kwC kwI : List String) :
    ((processDataframe t kwC kwI).sh1.length + (processDataframe t kwC kwI).sh2.length +
        (processDataframe t kwC kwI).sh3.length + (processDataframe t kwC kwI).sh4.length +
        (processDataframe t kwC kwI).sh5.length
      = t.rows.length + (pipelineInfo t kwC kwI).countP bothKW +
          (pipelineInfo t kwC kwI).countP dupRecvUnid)
    ∧ t.rows.length ≤
        (processDataframe t kwC kwI).sh1.length + (processDataframe t kwC kwI).sh2.length +
          (processDataframe t kwC kwI).sh3.length + (processDataframe t kwC kwI).sh4.length +
          (processDataframe t kwC kwI).sh5.length := by
  have hlens := sheetsOfInfo_lengths (pipelineInfo t kwC kwI)
  have hcount := countP_five (pipelineInfo t kwC kwI) (pipelineInfo_dir_mem t kwC kwI)
  have hlen := pipelineInfo_length t kwC kwI
  rw [processDataframe_eq, hlens.1, hlens.2.1, hlens.2.2.1, hlens.2.2.2.1, hlens.2.2.2.2]
  constructor
  · rw [hcount, hlen]
  · rw [hcount, hlen]
    omega

/-- C1 counterexample: a single-row table whose row has direction `"in"`,
an empty counterparty name and tax id, and no keyword match: the row is
copied into both sheet 1 and sheet 5, so the sheet counts sum to 2, not to
the input row count 1. -/
theorem claim1_counterexample :
    ¬ ((processDataframe ⟨["importe"], [[CellVal.text "150,00"]]⟩
          defaultKwComisiones defaultKwImpuestos).sh1.length +
        (processDataframe ⟨["importe"], [[CellVal.text "150,00"]]⟩
          defaultKwComisiones defaultKwImpuestos).sh2.length +
        (processDataframe ⟨["importe"], [[CellVal.text "150,00"]]⟩
          defaultKwComisiones defaultKwImpuestos).sh3.length +
        (processDataframe ⟨["importe"], [[CellVal.text "150,00"]]⟩
          defaultKwComisiones defaultKwImpuestos).sh4.length +
        (processDataframe ⟨["importe"], [[CellVal.text "150,00"]]⟩
          defaultKwComisiones defaultKwImpuestos).sh5.length
      = (Table.mk ["importe"] [[CellVal.text "150,00"]]).rows.length) := by
  decide

/-- C2: a row whose lower-cased description contains both a fee keyword and a
tax keyword is NOT classified fee-exclusively — the independent sheet-3 and
sheet-4 masks copy it into the fees sheet AND the taxes sheet. -/
theorem claim2_fee_and_tax_rows (t : Table) (kwC kwI : List String) (i : Nat)
    (hi : i < (pipelineInfo t kwC kwI).length)
    (hfee : containsKw kwC ((pipelineInfo t kwC kwI).getD i dfltRowInfo).ktext = true)
    (htax : containsKw kwI ((pipelineInfo t kwC kwI).getD i dfltRowInfo).ktext = true) :
    debitProj ((pipelineInfo t kwC kwI).getD i dfltRowInfo) ∈ (processDataframe t kwC kwI).sh3 ∧
    debitProj ((pipelineInfo t kwC kwI).getD i dfltRowInfo) ∈ (processDataframe t kwC kwI).sh4 := by
  have hx : (pipelineInfo t kwC kwI).getD i dfltRowInfo ∈ pipelineInfo t kwC kwI :=
    getD_mem_of_lt _ _ _ hi
  have hmask := pipelineInfo_masks t kwC kwI hx
  have hp3 : p3 ((pipelineInfo t kwC kwI).getD i dfltRowInfo) = true := by
    unfold p3
    rw [hmask.1]
    exact hfee
  have hp4 : p4 ((pipelineInfo t kwC kwI).getD i dfltRowInfo) = true := by
    unfold p4
    rw [hmask.2]
    exact htax
  rw [processDataframe_eq]
  exact ⟨mem_sorted_sheet debitLe p3 debitProj _ _ hx hp3,
         mem_sorted_sheet debitLe p4 debitProj _ _ hx hp4⟩

/-- C2 witness: the description "cargo iva" contains the default fee keyword
"cargo" and the default tax keyword "iva", and its row is in sheet 3 and in
sheet 4. -/
theorem claim2_fee_and_tax_rows_witness :
    debitProj ((pipelineInfo ⟨["detalle"], [[CellVal.text "cargo iva"]]⟩
        defaultKwComisiones defaultKwImpuestos).getD 0 dfltRowInfo) ∈
      (processDataframe ⟨["detalle"], [[CellVal.text "cargo iva"]]⟩
        defaultKwComisiones defaultKwImpuestos).sh3 ∧
    debitProj ((pipelineInfo ⟨["detalle"], [[CellVal.text "cargo iva"]]⟩
        defaultKwComisiones defaultKwImpuestos).getD 0 dfltRowInfo) ∈
      (processDataframe ⟨["detalle"], [[CellVal.text "cargo iva"]]⟩
        defaultKwComisiones defaultKwImpuestos).sh4 :=
  claim2_fee_and_tax_rows ⟨["detalle"], [[CellVal.text "cargo iva"]]⟩
    defaultKwComisiones defaultKwImpuestos 0 (by decide) (by decide) (by decide)

/-- C2 counterexample: the row "cargo iva" matches a fee keyword and a tax
keyword, yet it appears in the taxes sheet (sheet 4) — refuting
"never in the taxes sheet". -/
theorem claim2_counterexample :
    containsKw defaultKwComisiones "cargo iva" = true ∧
    containsKw defaultKwImpuestos "cargo iva" = true ∧
    (processDataframe ⟨["detalle"], [[CellVal.text "cargo iva"]]⟩
        defaultKwComisiones defaultKwImpuestos).sh4
      = [⟨none, "cargo iva", "cargo iva", 0⟩] := by
  decide

/-- C3: a row with direction `"in"` (or `"out"`), a non-zero amount, no
keyword match, and stripped-empty name and tax id is copied into the
unidentified sheet — but it is NOT removed from the received (or paid)
sheet: the empty-counterparty rule only adds the row to sheet 5. -/
theorem claim3_empty_counterparty (t : Table) (kwC kwI : List String) (i : Nat)
    (hi : i < (pipelineInfo t kwC kwI).length)
    (hcom : ((pipelineInfo t kwC kwI).getD i dfltRowInfo).com = false)
    (himp : ((pipelineInfo t kwC kwI).getD i dfltRowInfo).imp = false)
    (hdir : ((pipelineInfo t kwC kwI).getD i dfltRowInfo).dir = "in" ∨
            ((pipelineInfo t kwC kwI).getD i dfltRowInfo).dir = "out")
    (hamt : ((pipelineInfo t kwC kwI).getD i dfltRowInfo).importe ≠ 0)
    (hnom : trimChars ((pipelineInfo t kwC kwI).getD i dfltRowInfo).nombre.data = [])
    (hcuit : trimChars ((pipelineInfo t kwC kwI).getD i dfltRowInfo).cuit.data = []) :
    unidProj ((pipelineInfo t kwC kwI).getD i dfltRowInfo) ∈ (processDataframe t kwC kwI).sh5 ∧
    (((pipelineInfo t kwC kwI).getD i dfltRowInfo).dir = "in" →
      payProj ((pipelineInfo t kwC kwI).getD i dfltRowInfo) ∈ (processDataframe t kwC kwI).sh1) ∧
    (((pipelineInfo t kwC kwI).getD i dfltRowInfo).dir = "out" →
      payProj ((pipelineInfo t kwC kwI).getD i dfltRowInfo) ∈ (processDataframe t kwC kwI).sh2) := by
  have hx : (pipelineInfo t kwC kwI).getD i dfltRowInfo ∈ pipelineInfo t kwC kwI :=
    getD_mem_of_lt _ _ _ hi
  have hemp : emptyNC ((pipelineInfo t kwC kwI).getD i dfltRowInfo) = true := by
    unfold emptyNC
    rw [hnom, hcuit]
    rfl
  have hp5 : p5 ((pipelineInfo t kwC kwI).getD i dfltRowInfo) = true := by
    unfold p5
    rw [hcom, himp, hemp]
    simp
  rw [processDataframe_eq]
  refine ⟨mem_sorted_sheet debitLe p5 unidProj _ _ hx hp5, ?_, ?_⟩
  · intro hin
    have hp1 : p1 ((pipelineInfo t kwC kwI).getD i dfltRowInfo) = true := by
      unfold p1
      rw [hcom, himp, hin]
      rfl
    exact mem_sorted_sheet payLe p1 payProj _ _ hx hp1
  · intro hout
    have hp2 : p2 ((pipelineInfo t kwC kwI).getD i dfltRowInfo) = true := by
      unfold p2
      rw [hcom, himp, hout]
      rfl
    exact mem_sorted_sheet payLe p2 payProj _ _ hx hp2

/-- C3 witness: a single "importe"-only row of 150,00 has direction `"in"`,
empty name and tax id, no keyword match — and lands in sheet 5 and
(per the corrected statement) also in sheet 1. -/
theorem claim3_empty_counterparty_witness :
    unidProj ((pipelineInfo ⟨["importe"], [[CellVal.text "150,00"]]⟩
        defaultKwComisiones defaultKwImpuestos).getD 0 dfltRowInfo) ∈
      (processDataframe ⟨["importe"], [[CellVal.text "150,00"]]⟩
        defaultKwComisiones defaultKwImpuestos).sh5 ∧
    (((pipelineInfo ⟨["importe"], [[CellVal.text "150,00"]]⟩
        defaultKwComisiones defaultKwImpuestos).getD 0 dfltRowInfo).dir = "in" →
      payProj ((pipelineInfo ⟨["importe"], [[CellVal.text "150,00"]]⟩
          defaultKwComisiones defaultKwImpuestos).getD 0 dfltRowInfo) ∈
        (processDataframe ⟨["importe"], [[CellVal.text "150,00"]]⟩
          defaultKwComisiones defaultKwImpuestos).sh1) ∧
    (((pipelineInfo ⟨["importe"], [[CellVal.text "150,00"]]⟩
        defaultKwComisiones defaultKwImpuestos).getD 0 dfltRowInfo).dir = "out" →
      payProj ((pipelineInfo ⟨["importe"], [[CellVal.text "150,00"]]⟩
          defaultKwComisiones defaultKwImpuestos).getD 0 dfltRowInfo) ∈
        (processDataframe ⟨["importe"], [[CellVal.text "150,00"]]⟩
          defaultKwComisiones defaultKwImpuestos).sh2) :=
  claim3_empty_counterparty ⟨["importe"], [[CellVal.text "150,00"]]⟩
    defaultKwComisiones defaultKwImpuestos 0 (by decide) (by decide) (by decide)
    (Or.inl (by decide)) (by decide) (by decide) (by decide)

/-- C3 counterexample: the 150,00 row with direction `"in"`, empty name and
tax id, and no keyword match appears in the RECEIVED sheet (sheet 1) as well
as in the unidentified sheet — refuting "not in the received sheet". -/
theorem claim3_counterexample :
    ((pipelineInfo ⟨["importe"], [[CellVal.text "150,00"]]⟩
        defaultKwComisiones defaultKwImpuestos).getD 0 dfltRowInfo).dir = "in" ∧
    trimChars ((pipelineInfo ⟨["importe"], [[CellVal.text "150,00"]]⟩
        defaultKwComisiones defaultKwImpuestos).getD 0 dfltRowInfo).nombre.data = [] ∧
    trimChars ((pipelineInfo ⟨["importe"], [[CellVal.text "150,00"]]⟩
        defaultKwComisiones defaultKwImpuestos).getD 0 dfltRowInfo).cuit.data = [] ∧
    (processDataframe ⟨["importe"], [[CellVal.text "150,00"]]⟩
        defaultKwComisiones defaultKwImpuestos).sh1
      = [⟨none, "", "", "", mkRat 150 1⟩] ∧
    (processDataframe ⟨["importe"], [[CellVal.text "150,00"]]⟩
        defaultKwComisiones defaultKwImpuestos).sh5
      = [⟨none, "", "Sin Identificacion", mkRat 150 1⟩] := by
  decide

theorem zipWith_replicate_self {α β γ : Type} (f : α → β → γ) (a : α) (b : β) (n : Nat) :
    List.zipWith f (List.replicate n a) (List.replicate n b) = List.replicate n (f a b) := by
  induction n with
  | zero => rfl
  | succ n ih => simp [List.replicate_succ, ih]

theorem getD_replicate_any {α : Type} (a : α) (n i : Nat) :
    (List.replicate n a).getD i a = a := by
  by_cases h : i < n
  · rw [List.getD_eq_getElem _ a (by simpa using h)]
    exact List.getElem_replicate a _
  · rw [List.getD_eq_default]
    simpa using Nat.le_of_not_lt h

theorem detect_all_none_fst (t : Table) :
    (detectDirectionAndAmount t none none none none).1 = List.replicate t.rows.length 0 := rfl

theorem detect_all_none_snd (t : Table) :
    (detectDirectionAndAmount t none none none none).2 = List.replicate t.rows.length "zero" := by
  show List.zipWith (fun d s => if d == "zero" then s else d)
      (List.replicate t.rows.length "zero")
      ((List.replicate t.rows.length (0 : ℚ)).map signDirection)
    = List.replicate t.rows.length "zero"
  rw [List.map_replicate, zipWith_replicate_self]
  rfl

/-- C9: when no column resolves to any semantic role, the run still completes
and every amount is 0.0 with direction `"zero"`; every row whose
fallback-description text matches no fee/tax keyword lands in the
unidentified sheet, and sheets 1 and 2 are empty.  If additionally no row
matches a keyword (the spec's implicit reading), the report is exactly
all-unidentified: sheets 3 and 4 empty and sheet 5 of full input length.
(The spec's unconditional "all-unidentified" is refuted by the
counterexample: the fallback description can still match a keyword.) -/
theorem claim9_degenerate_table (t : Table) (kwC kwI : List String)
    (hfe : (pipelineRoles t).fecha = none) (hrf : (pipelineRoles t).ref = none)
    (hno : (pipelineRoles t).nombre = none) (hcu : (pipelineRoles t).cuit = none)
    (him : (pipelineRoles t).importe = none) (hcr : (pipelineRoles t).credito = none)
    (hdb : (pipelineRoles t).debito = none) (hti : (pipelineRoles t).tipo = none) :
    (∀ x ∈ pipelineInfo t kwC kwI, x.importe = 0 ∧ x.dir = "zero") ∧
    (processDataframe t kwC kwI).sh1 = [] ∧ (processDataframe t kwC kwI).sh2 = [] ∧
    (∀ x ∈ pipelineInfo t kwC kwI, x.com = false → x.imp = false →
      unidProj x ∈ (processDataframe t kwC kwI).sh5) ∧
    ((∀ x ∈ pipelineInfo t kwC kwI, x.com = false ∧ x.imp = false) →
      (processDataframe t kwC kwI).sh3 = [] ∧ (processDataframe t kwC kwI).sh4 = [] ∧
      (processDataframe t kwC kwI).sh5.length = t.rows.length) := by
  have hAD : pipelineAD t = detectDirectionAndAmount (stripTable t) none none none none := by
    unfold pipelineAD
    rw [him, hcr, hdb, hti]
  have hbase : ∀ x ∈ pipelineInfo t kwC kwI, x.importe = 0 ∧ x.dir = "zero" := by
    intro x hx
    unfold pipelineInfo at hx
    rcases mem_rowInfoList _ _ _ _ _ _ _ _ _ _ hx with ⟨i, hi, hdir, himpo, -, -⟩
    constructor
    · rw [himpo, hAD, detect_all_none_fst]
      exact getD_replicate_any 0 _ i
    · rw [hdir, hAD, detect_all_none_snd]
      have : ((List.replicate (stripTable t).rows.length "zero").getD i "zero") = "zero" :=
        getD_replicate_any "zero" _ i
      rw [List.getD_eq_getElem _ _ (by simpa using hi)]
      exact List.getElem_replicate "zero" _
  have hdirz : ∀ x ∈ pipelineInfo t kwC kwI, x.dir = "zero" := fun x hx => (hbase x hx).2
  refine ⟨hbase, ?_, ?_, ?_, ?_⟩
  · rw [processDataframe_eq]
    exact sheet_filter_nil payLe p1 payProj _ (fun x hx => by
      unfold p1
      rw [hdirz x hx, bqZeroIn]
      simp)
  · rw [processDataframe_eq]
    exact sheet_filter_nil payLe p2 payProj _ (fun x hx => by
      unfold p2
      rw [hdirz x hx, bqZeroOut]
      simp)
  · intro x hx hc hi2
    have hp5 : p5 x = true := by
      unfold p5
      rw [hc, hi2, hdirz x hx]
      rfl
    rw [processDataframe_eq]
    exact mem_sorted_sheet debitLe p5 unidProj _ _ hx hp5
  · intro hnone
    refine ⟨?_, ?_, ?_⟩
    · rw [processDataframe_eq]
      exact sheet_filter_nil debitLe p3 debitProj _ (fun x hx => (hnone x hx).1)
    · rw [processDataframe_eq]
      exact sheet_filter_nil debitLe p4 debitProj _ (fun x hx => (hnone x hx).2)
    · rw [processDataframe_eq]
      have : (sheetsOfInfo (pipelineInfo t kwC kwI)).sh5.length = (pipelineInfo t kwC kwI).length := by
        show (stableSort debitLe (((pipelineInfo t kwC kwI).filter p5).map unidProj)).length = _
        exact sheet_filter_all_length debitLe p5 unidProj _ (fun x hx => by
          unfold p5
          rw [(hnone x hx).1, (hnone x hx).2, hdirz x hx]
          rfl)
      rw [this, pipelineInfo_length]

/-- C9 witness: a one-column table "xyz" (resolving no role) with the
keyword-free row "hola" produces empty sheets 1-4 and a one-row sheet 5. -/
theorem claim9_degenerate_table_witness :
    (processDataframe ⟨["xyz"], [[CellVal.text "hola"]]⟩
        defaultKwComisiones defaultKwImpuestos).sh3 = [] ∧
    (processDataframe ⟨["xyz"], [[CellVal.text "hola"]]⟩
        defaultKwComisiones defaultKwImpuestos).sh4 = [] ∧
    (processDataframe ⟨["xyz"], [[CellVal.text "hola"]]⟩
        defaultKwComisiones defaultKwImpuestos).sh5.length
      = (Table.mk ["xyz"] [[CellVal.text "hola"]]).rows.length :=
  (claim9_degenerate_table ⟨["xyz"], [[CellVal.text "hola"]]⟩
      defaultKwComisiones defaultKwImpuestos
      (by decide) (by decide) (by decide) (by decide)
      (by decide) (by decide) (by decide) (by decide)).2.2.2.2 (by decide)

/-- C9 counterexample: with no resolved roles the fallback description is the
first column, and a cell "cargo" matches the default fee keyword "cargo" —
the row lands in the fees sheet, not in the unidentified sheet, refuting
"every row is classified unidentified". -/
theorem claim9_counterexample :
    (processDataframe ⟨["xyz"], [[CellVal.text "cargo"]]⟩
        defaultKwComisiones defaultKwImpuestos).sh3.length = 1 ∧
    (processDataframe ⟨["xyz"], [[CellVal.text "cargo"]]⟩
        defaultKwComisiones defaultKwImpuestos).sh5 = [] := by
  decide

theorem getD_map_of_lt {α β : Type} (f : α → β) (l : List α) (i : Nat) (da : α) (db : β)
    (h : i < l.length) : (l.map f).getD i db = f (l.getD i da) := by
  rw [List.getD_eq_getElem _ db (by simpa using h), List.getD_eq_getElem _ da h,
    List.getElem_map]

theorem getD_zipWith_of_lt {α β γ : Type} (f : α → β → γ) (as : List α) (bs : List β)
    (i : Nat) (da : α) (db : β) (dc : γ) (ha : i < as.length) (hb : i < bs.length) :
    (List.zipWith f as bs).getD i dc = f (as.getD i da) (bs.getD i db) := by
  induction as generalizing bs i with
  | nil => exact absurd ha (by simp)
  | cons a as ih =>
    cases bs with
    | nil => exact absurd hb (by simp)
    | cons b bs =>
      cases i with
      | zero => rfl
      | succ j =>
        simp only [List.zipWith_cons_cons, List.getD_cons_succ]
        exact ih bs j (by simpa using ha) (by simpa using hb)

theorem detect_dir_getD (t : Table) (ci cc cd : Option String) (ct : String) (i : Nat)
    (hi : i < t.rows.length) :
    (detectDirectionAndAmount t ci cc cd (some ct)).2.getD i "" =
      (if typeDirection (lowerStr (cellToStr ((colVals t ct).getD i CellVal.na))) == "zero"
        then signDirection ((detectDirectionAndAmount t ci cc cd (some ct)).1.getD i 0)
        else typeDirection (lowerStr (cellToStr ((colVals t ct).getD i CellVal.na)))) := by
  show (List.zipWith (fun d s => if d == "zero" then s else d)
      ((colVals t ct).map (fun c => typeDirection (lowerStr (cellToStr c))))
      ((detectDirectionAndAmount t ci cc cd (some ct)).1.map signDirection)).getD i "" = _
  rw [getD_zipWith_of_lt _ _ _ i (typeDirection (lowerStr (cellToStr CellVal.na))) "zero" ""
      (by rw [List.length_map, length_colVals]; exact hi)
      (by rw [List.length_map, detect_fst_length]; exact hi)]
  rw [getD_map_of_lt _ _ i CellVal.na _ (by rw [length_colVals]; exact hi)]
  rw [getD_map_of_lt signDirection _ i 0 "zero" (by rw [detect_fst_length]; exact hi)]

theorem detect_dir_getD_none (t : Table) (ci cc cd : Option String) (i : Nat)
    (hi : i < t.rows.length) :
    (detectDirectionAndAmount t ci cc cd none).2.getD i ""
      = signDirection ((detectDirectionAndAmount t ci cc cd none).1.getD i 0) := by
  show (List.zipWith (fun d s => if d == "zero" then s else d)
      (List.replicate t.rows.length "zero")
      ((detectDirectionAndAmount t ci cc cd none).1.map signDirection)).getD i "" = _
  rw [getD_zipWith_of_lt _ _ _ i "zero" "zero" "" (by simpa using hi)
      (by rw [List.length_map, detect_fst_length]; exact hi)]
  rw [getD_map_of_lt signDirection _ i 0 "zero" (by rw [detect_fst_length]; exact hi)]
  rw [getD_replicate_any]
  rfl

/-- C6: an explicit type-column text whose keyword stage yields `"in"` or
`"out"` fixes the row's direction regardless of the amount's sign, and
sign inference (`> 0` → in, `< 0` → out, `= 0` → zero) is applied exactly
where the type stage answered `"zero"` — in particular everywhere when no
type column resolved. -/
theorem claim6_direction_two_stage (t : Table) (ci cc cd : Option String) (ct : String)
    (i : Nat) (hi : i < t.rows.length) :
    (typeDirection (lowerStr (cellToStr ((colVals t ct).getD i CellVal.na))) ≠ "zero" →
      (detectDirectionAndAmount t ci cc cd (some ct)).2.getD i ""
        = typeDirection (lowerStr (cellToStr ((colVals t ct).getD i CellVal.na)))) ∧
    (typeDirection (lowerStr (cellToStr ((colVals t ct).getD i CellVal.na))) = "zero" →
      (detectDirectionAndAmount t ci cc cd (some ct)).2.getD i ""
        = signDirection ((detectDirectionAndAmount t ci cc cd (some ct)).1.getD i 0)) ∧
    (∀ ci2 cc2 cd2 : Option String,
      (detectDirectionAndAmount t ci2 cc2 cd2 none).2.getD i ""
        = signDirection ((detectDirectionAndAmount t ci2 cc2 cd2 none).1.getD i 0)) := by
  refine ⟨?_, ?_, fun ci2 cc2 cd2 => detect_dir_getD_none t ci2 cc2 cd2 i hi⟩
  · intro hne
    rw [detect_dir_getD t ci cc cd ct i hi]
    rw [if_neg]
    intro hb
    exact hne (by rwa [beq_iff_eq] at hb)
  · intro hz
    rw [detect_dir_getD t ci cc cd ct i hi]
    rw [if_pos]
    rw [hz]
    rfl

/-- C6 witness: a row with explicit type text "credito" and amount −50 is
still directed `"in"` (the stage-1 signal wins over the negative sign). -/
theorem claim6_direction_two_stage_witness :
    typeDirection (lowerStr (cellToStr ((colVals ⟨["tipo", "importe"],
        [[CellVal.text "credito", CellVal.text "-50"]]⟩ "tipo").getD 0 CellVal.na))) = "in" ∧
    (detectDirectionAndAmount ⟨["tipo", "importe"],
        [[CellVal.text "credito", CellVal.text "-50"]]⟩
        (some "importe") none none (some "tipo")).1.getD 0 0 < 0 ∧
    (detectDirectionAndAmount ⟨["tipo", "importe"],
        [[CellVal.text "credito", CellVal.text "-50"]]⟩
        (some "importe") none none (some "tipo")).2.getD 0 "" = "in" := by
  refine ⟨by decide, by decide, ?_⟩
  have h := (claim6_direction_two_stage ⟨["tipo", "importe"],
      [[CellVal.text "credito", CellVal.text "-50"]]⟩
      (some "importe") none none "tipo" 0 (by decide)).1 (by decide)
  rw [h]
  decide

/-- C10: the final direction of every row is one of `"in"`, `"out"`,
`"zero"`, and a final direction `"zero"` forces the computed signed amount
to be exactly 0 (stage 1 answered `"zero"` and sign inference saw a zero
amount). -/
theorem claim10_direction_invariant (t : Table) (ci cc cd ct : Option String) (i : Nat)
    (hi : i < t.rows.length) :
    ((detectDirectionAndAmount t ci cc cd ct).2.getD i "" = "in" ∨
     (detectDirectionAndAmount t ci cc cd ct).2.getD i "" = "out" ∨
     (detectDirectionAndAmount t ci cc cd ct).2.getD i "" = "zero") ∧
    ((detectDirectionAndAmount t ci cc cd ct).2.getD i "" = "zero" →
      (detectDirectionAndAmount t ci cc cd ct).1.getD i 0 = 0) := by
  constructor
  · apply detect_dir_mem
    apply getD_mem_of_lt
    rw [detect_snd_length]
    exact hi
  · cases ct with
    | none =>
      intro hz
      rw [detect_dir_getD_none t ci cc cd i hi] at hz
      exact signDirection_eq_zero hz
    | some c =>
      intro hz
      rw [detect_dir_getD t ci cc cd c i hi] at hz
      by_cases hb : (typeDirection (lowerStr (cellToStr ((colVals t c).getD i CellVal.na))) == "zero")
      · rw [if_pos hb] at hz
        exact signDirection_eq_zero hz
      · rw [if_neg hb] at hz
        exact absurd (beq_iff_eq.mpr hz) hb

/-- C10 witness: a table with an unresolvable amount yields direction
`"zero"` and amount 0 on its row. -/
theorem claim10_direction_invariant_witness :
    ((detectDirectionAndAmount ⟨["xyz"], [[CellVal.text "hola"]]⟩ none none none none).2.getD 0 "" = "in" ∨
     (detectDirectionAndAmount ⟨["xyz"], [[CellVal.text "hola"]]⟩ none none none none).2.getD 0 "" = "out" ∨
     (detectDirectionAndAmount ⟨["xyz"], [[CellVal.text "hola"]]⟩ none none none none).2.getD 0 "" = "zero") ∧
    ((detectDirectionAndAmount ⟨["xyz"], [[CellVal.text "hola"]]⟩ none none none none).2.getD 0 "" = "zero" →
      (detectDirectionAndAmount ⟨["xyz"], [[CellVal.text "hola"]]⟩ none none none none).1.getD 0 0 = 0) :=
  claim10_direction_invariant ⟨["xyz"], [[CellVal.text "hola"]]⟩ none none none none 0 (by decide)

theorem firstSuccess_eq_none (ps : List (List Char → Option DateTime)) (s : List Char)
    (h : ∀ p ∈ ps, p s = none) : firstSuccess ps s = none := by
  induction ps with
  | nil => rfl
  | cons p ps ih =>
    unfold firstSuccess
    rw [h p (List.mem_cons_self p ps)]
    exact ih (fun q hq => h q (List.mem_cons_of_mem p hq))

theorem firstSuccess_first_wins (ps : List (List Char → Option DateTime)) (s : List Char) :
    ∀ (i : Nat) (h : i < ps.length) (d : DateTime),
      (∀ (j : Nat) (hj : j < ps.length), j < i → ps.get ⟨j, hj⟩ s = none) →
      ps.get ⟨i, h⟩ s = some d → firstSuccess ps s = some d := by
  induction ps with
  | nil =>
    intro i h
    exact absurd h (by simp)
  | cons p ps ih =>
    intro i h d hprev hcur
    cases i with
    | zero =>
      unfold firstSuccess
      rw [show (p :: ps).get ⟨0, h⟩ = p from rfl] at hcur
      rw [hcur]
    | succ j =>
      unfold firstSuccess
      have h0 : p s = none := hprev 0 (by simp) (Nat.succ_pos j)
      rw [h0]
      exact ih j (by simpa using h) d
        (fun k hk hkj => hprev (k + 1) (by simpa using hk) (by omega))
        (by simpa using hcur)

/-- Every pattern of `_to_datetime` failing on a stripped text. -/
def allDatePatternsFail (s : List Char) : Bool :=
  datePatterns.all (fun p => (p s).isNone)

/-- C5: `_to_datetime` tries its fixed ordered pattern list (day-first
flexible plain parse first, then the five strict formats and the two
time-suffixed ones) and the first pattern that parses wins; a cell on which
every pattern fails yields a null date (never an error), the empty text
yields a null date, and "31/01/2024" resolves day-first to
January 31 2024. -/
theorem claim5_date_parsing (s : List Char) (i : Nat) (h : i < datePatterns.length)
    (d : DateTime)
    (hprev : ∀ (j : Nat) (hj : j < datePatterns.length), j < i →
      datePatterns.get ⟨j, hj⟩ s = none)
    (hcur : datePatterns.get ⟨i, h⟩ s = some d) :
    parseDateChars s = some d ∧
    toDatetimeCell (CellVal.text "") = none ∧
    toDatetimeCell (CellVal.text "31/01/2024") = some ⟨2024, 1, 31, 0, 0, 0⟩ ∧
    (∀ s2 : List Char, allDatePatternsFail s2 = true → parseDateChars s2 = none) := by
  refine ⟨firstSuccess_first_wins datePatterns s i h d hprev hcur, by decide, by decide, ?_⟩
  intro s2 hall
  apply firstSuccess_eq_none
  intro p hp
  have := List.all_eq_true.1 hall p hp
  exact Option.isNone_iff_eq_none.1 this

/-- C5 witness: the very first pattern (the flexible day-first parse)
succeeds on "31/01/2024" with January 31 2024. -/
theorem claim5_date_parsing_witness :
    parseDateChars ("31/01/2024".data) = some ⟨2024, 1, 31, 0, 0, 0⟩ :=
  (claim5_date_parsing ("31/01/2024".data) 0 (by decide) ⟨2024, 1, 31, 0, 0, 0⟩
    (fun j hj hj0 => absurd hj0 (Nat.not_lt_zero j)) (by decide)).1

/-- C8: a per-cell parse failure never aborts — a text cell on which every
date pattern fails maps to the null date, and a text cell whose normalised
form `float` cannot parse maps to the amount 0.0 (both functions are total
by construction). -/
theorem claim8_parse_failure_fallback (s1 s2 : String)
    (h1 : allDatePatternsFail (trimChars s1.data) = true)
    (h2 : parseFloatQ (cleanNumChars s2.data) = none) :
    toDatetimeCell (CellVal.text s1) = none ∧ toNumber (CellVal.text s2) = 0 := by
  constructor
  · show parseDateChars (trimChars s1.data) = none
    apply firstSuccess_eq_none
    intro p hp
    exact Option.isNone_iff_eq_none.1 (List.all_eq_true.1 h1 p hp)
  · simp only [toNumber]
    rw [h2]

/-- C8 witness: "hello" parses as neither a date nor a number and falls back
to null / 0.0. -/
theorem claim8_parse_failure_fallback_witness :
    toDatetimeCell (CellVal.text "hello") = none ∧ toNumber (CellVal.text "not a number") = 0 :=
  claim8_parse_failure_fallback "hello" "not a number" (by decide) (by decide)

/-- C4: the locale heuristic of `_to_number` parses "1.234,56" to 1234.56
and "1,234,567" to 1234567.0 as the spec says, but "1,234.56" — a
US-formatted amount with a decimal part — falls into the
dot-is-thousands/comma-is-decimal branch and comes out as 1.23456, NOT
1234.56 (the code's own comment claims the en_US case is handled). -/
theorem claim4_number_locale :
    toNumber (CellVal.text "1.234,56") = mkRat 123456 100 ∧
    toNumber (CellVal.text "1,234.56") = mkRat 123456 100000 ∧
    toNumber (CellVal.text "1,234,567") = mkRat 1234567 1 := by
  decide

/-- The resolver as the spec words it (for refinement comparison): scan the
candidate slugs most-specific first and return the FIRST header in input
order whose slug equals the candidate. -/
def specFirstHeaderResolve (headers : List String) : List String → Option String
  | [] => none
  | c :: cs =>
    match headers.find? (fun h => slugOf h == c) with
    | some h => some h
    | none => specFirstHeaderResolve headers cs

theorem findCol_characterisation (headers cands : List String) :
    findCol headers cands
      = (cands.find? (fun c => headers.any (fun h => slugOf h == c))).bind
          (fun c => headers.reverse.find? (fun h => slugOf h == c)) := by
  induction cands with
  | nil => rfl
  | cons c cs ih =>
    unfold findCol
    unfold dictLookup
    cases hd : headers.reverse.find? (fun h => slugOf h == c) with
    | some orig =>
      have horig : orig ∈ headers.reverse := List.mem_of_find?_eq_some hd
      have hslug := List.find?_some hd
      have hex : (headers.any fun h => slugOf h == c) = true :=
        List.any_eq_true.2 ⟨orig, List.mem_reverse.1 horig, by simpa using hslug⟩
      rw [@List.find?_cons_of_pos String (fun c2 => headers.any fun h2 => slugOf h2 == c2) c cs hex]
      simp only [Option.bind]
      exact hd.symm
    | none =>
      have hnone : ¬ ((headers.any fun h => slugOf h == c) = true) := by
        rw [List.find?_eq_none] at hd
        intro hany
        rcases List.any_eq_true.1 hany with ⟨h, hh, hsl⟩
        exact hd h (List.mem_reverse.2 hh) hsl
      rw [@List.find?_cons_of_neg String (fun c2 => headers.any fun h2 => slugOf h2 == c2) c cs hnone]
      exact ih

/-- C7: the resolver is NOT "first header in input order" — the slug dict is
built by a comprehension whose later entries overwrite earlier ones, so for
the first candidate slug that any header matches, the resolver returns the
LAST header in input order bearing that slug (first-header and last-header
only coincide when header slugs are distinct); a role with no matching
candidate is unresolved, and the resolution is a deterministic pure function
of the header list. -/
theorem claim7_column_resolver (headers cands : List String) :
    (findCol headers cands
      = (cands.find? (fun c => headers.any (fun h => slugOf h == c))).bind
          (fun c => headers.reverse.find? (fun h => slugOf h == c))) ∧
    (findCol headers cands = none ↔ ∀ c ∈ cands, ∀ h ∈ headers, ¬ slugOf h = c) := by
  refine ⟨findCol_characterisation headers cands, ?_⟩
  rw [findCol_characterisation headers cands]
  constructor
  · intro hn c hc h hh hsl
    cases hf : cands.find? (fun c2 => headers.any fun h2 => slugOf h2 == c2) with
    | none =>
      rw [List.find?_eq_none] at hf
      exact hf c hc (List.any_eq_true.2 ⟨h, hh, by rw [hsl]; exact beq_self_eq_true c⟩)
    | some c0 =>
      rw [hf] at hn
      simp only [Option.bind] at hn
      have hp : (headers.any fun h2 => slugOf h2 == c0) = true := by
        have := List.find?_some hf
        simpa using this
      rcases List.any_eq_true.1 hp with ⟨h2, hh2, hslug⟩
      rw [List.find?_eq_none] at hn
      exact hn h2 (List.mem_reverse.2 hh2) hslug
  · intro hall
    cases hf : cands.find? (fun c2 => headers.any fun h2 => slugOf h2 == c2) with
    | none =>
      rfl
    | some c0 =>
      exfalso
      have hc0 : c0 ∈ cands := List.mem_of_find?_eq_some hf
      have hp : (headers.any fun h2 => slugOf h2 == c0) = true := by
        have := List.find?_some hf
        simpa using this
      rcases List.any_eq_true.1 hp with ⟨h2, hh2, hsl⟩
      exact hall c0 hc0 h2 hh2 (by rwa [beq_iff_eq] at hsl)

/-- C7 counterexample: the headers "Fecha!" and "fecha" share the slug
"fecha"; the claim's first-header reading picks "Fecha!", but the resolver
(dict overwrite) returns the later header "fecha". -/
theorem claim7_counterexample :
    (guessColumns ["Fecha!", "fecha"]).fecha = some "fecha" ∧
    specFirstHeaderResolve ["Fecha!", "fecha"] fechaCands = some "Fecha!" ∧
    ¬ ((guessColumns ["Fecha!", "fecha"]).fecha
        = specFirstHeaderResolve ["Fecha!", "fecha"] fechaCands) := by
  decide
